import Mathlib

/-!
Shallow embedding of the llm-magic Jupyter extension (AaronHTan/llm-magic).

The repository ships its Python sources under src/llm_magic/ (magic.py,
clients.py, bridge.py, config.py, logging.py per the README project-structure
section), but only the README, a README fragment, and the demo notebook are
available here; every executable definition below is therefore modelled from
the specification and the README flag/configuration tables, as its doc
comment records.
-/

/-- Modelled from the spec: the LLM providers supported by the magic
(src/llm_magic/clients.py is missing); the spec and README list exactly
openai and claude. -/
inductive Provider
  | openai
  | claude
  deriving DecidableEq, Repr

/-- Modelled from the spec: the error taxonomy of section 7 of the spec
(flag-parse, config-validation, unsupported-provider, authentication,
provider-transport split into rate-limit, network and unknown, and the
unsupported-host-environment error of the bridge). -/
inductive MagicError
  | flagParse (msg : String)
  | configValidation (msg : String)
  | unsupportedProvider (name : String)
  | authError
  | rateLimitError
  | networkError
  | unknownError
  | unsupportedEnvironment
  deriving DecidableEq, Repr

/-- Modelled from the spec: the parsed flag record of the magic line,
with the flag set documented in the README command-line-options table
(provider, model, context, exec, inject, no-variables, temperature,
max-tokens, raw).  Temperature is modelled as a rational number. -/
structure Flags where
  provider : Option String
  model : Option String
  context : Nat
  exec : Bool
  inject : Bool
  noVariables : Bool
  temperature : Option Rat
  maxTokens : Option Nat
  raw : Bool
  deriving DecidableEq, Repr

/-- Modelled from the spec: the built-in flag defaults; the README flag
table gives the context default as 3, every other optional flag is absent
and every toggle is off. -/
def defaultFlags : Flags where
  provider := none
  model := none
  context := 3
  exec := false
  inject := false
  noVariables := false
  temperature := none
  maxTokens := none
  raw := false

/-- Modelled from the spec: one already-tokenised argument of the magic
line, the shallow embedding of what the flag parser of the missing
src/llm_magic/magic.py receives; an unrecognised token is kept as
unknownFlag. -/
inductive Arg
  | providerFlag (v : String)
  | modelFlag (v : String)
  | contextFlag (v : Int)
  | execFlag
  | injectFlag
  | noVariablesFlag
  | temperatureFlag (v : Rat)
  | maxTokensFlag (v : Int)
  | rawFlag
  | unknownFlag (s : String)
  deriving DecidableEq, Repr

/-- Whether an argument is the context flag (used to state that an
invocation omits --context). -/
def Arg.isContextArg : Arg → Bool
  | .contextFlag _ => true
  | _ => false

/-- Modelled from the spec: applying one parsed argument to the flag
record; a malformed value or an unknown flag yields a usage-error
message. -/
def applyArg (f : Flags) : Arg → Except String Flags
  | .providerFlag v => .ok { f with provider := some v }
  | .modelFlag v => .ok { f with model := some v }
  | .contextFlag v =>
      if v < 0 then .error "argument --context must be non-negative"
      else .ok { f with context := v.toNat }
  | .execFlag => .ok { f with exec := true }
  | .injectFlag => .ok { f with inject := true }
  | .noVariablesFlag => .ok { f with noVariables := true }
  | .temperatureFlag v => .ok { f with temperature := some v }
  | .maxTokensFlag v =>
      if v ≤ 0 then .error "argument --max-tokens must be positive"
      else .ok { f with maxTokens := some v.toNat }
  | .rawFlag => .ok { f with raw := true }
  | .unknownFlag s => .error ("unrecognized argument: " ++ s)

/-- Modelled from the spec: value validation after parsing; the spec
requires the temperature to lie within the interval from 0 to 2. -/
def validateFlags (f : Flags) : Except String Flags :=
  match f.temperature with
  | none => .ok f
  | some t =>
      if 0 ≤ t ∧ t ≤ 2 then .ok f
      else .error "temperature must be between 0 and 2"

/-- Modelled from the spec: the flag-parsing loop, folding the arguments
over the accumulated flag record and validating the result. -/
def parseArgs (f : Flags) : List Arg → Except String Flags
  | [] => validateFlags f
  | a :: rest =>
      match applyArg f a with
      | .error e => .error e
      | .ok f2 => parseArgs f2 rest

/-- Modelled from the spec: parsing the magic line of a %%llm invocation,
starting from the built-in flag defaults. -/
def parseFlags (args : List Arg) : Except String Flags :=
  parseArgs defaultFlags args

/-- Modelled from the spec: overlaying one optional higher-precedence value
on a base value, the merge step of the missing src/llm_magic/config.py. -/
def overlay {α : Type} (base : α) (upd : Option α) : α :=
  match upd with
  | some v => v
  | none => base

/-- Modelled from the spec: resolving one configuration setting by
successively overlaying the YAML-file value, then the environment-variable
value, then the explicit-flag value, on the built-in default. -/
def resolveSetting {α : Type} (deflt : α) (file envv flag : Option α) : α :=
  overlay (overlay (overlay deflt file) envv) flag

/-- Modelled from the spec: one configuration source: for each setting of
the README global-configuration section, the value this source supplies,
when it supplies one. -/
structure ConfigSources where
  debug : Option Bool
  defaultProviderName : Option String
  defaultOpenaiModel : Option String
  defaultClaudeModel : Option String
  maxContextCells : Option Nat
  maxTokens : Option Nat
  temperature : Option Rat
  logRequests : Option Bool
  deriving DecidableEq, Repr

/-- Modelled from the spec: the fully resolved configuration, one value
per setting of the README global-configuration section. -/
structure Config where
  debug : Bool
  defaultProviderName : String
  defaultOpenaiModel : String
  defaultClaudeModel : String
  maxContextCells : Nat
  maxTokens : Nat
  temperature : Rat
  logRequests : Bool
  deriving DecidableEq, Repr

/-- Modelled from the spec: ConfigManager.resolve, merging the YAML file,
the environment variables and the explicit flags over the built-in
defaults of the README example config (provider openai, model gpt-4,
claude model claude-3-sonnet-20240229, 10 context cells, 2000 tokens,
temperature 0.7, logging and debug off), setting by setting. -/
def ConfigManager.resolve (file envv flags : ConfigSources) : Config where
  debug := resolveSetting false file.debug envv.debug flags.debug
  defaultProviderName :=
    resolveSetting "openai" file.defaultProviderName envv.defaultProviderName
      flags.defaultProviderName
  defaultOpenaiModel :=
    resolveSetting "gpt-4" file.defaultOpenaiModel envv.defaultOpenaiModel
      flags.defaultOpenaiModel
  defaultClaudeModel :=
    resolveSetting "claude-3-sonnet-20240229" file.defaultClaudeModel
      envv.defaultClaudeModel flags.defaultClaudeModel
  maxContextCells :=
    resolveSetting 10 file.maxContextCells envv.maxContextCells flags.maxContextCells
  maxTokens := resolveSetting 2000 file.maxTokens envv.maxTokens flags.maxTokens
  temperature :=
    resolveSetting (7 / 10 : Rat) file.temperature envv.temperature flags.temperature
  logRequests := resolveSetting false file.logRequests envv.logRequests flags.logRequests

/-- Modelled from the spec: the notebook state the bridge reads from the
host kernel: the chronological list of executed cell texts and the
namespace variables, each rendered as name, type and truncated value. -/
structure NotebookState where
  history : List String
  namespaceVars : List (String × String × String)
  deriving DecidableEq, Repr

/-- Modelled from the spec: the bounded context assembled for the prompt:
an ordered sequence of prior cell texts plus an optional rendering of the
namespace variables. -/
structure PromptContext where
  cells : List String
  variableSnapshot : Option String
  deriving DecidableEq, Repr

/-- The last n elements of a list, in their original order. -/
def takeLast {α : Type} (n : Nat) (l : List α) : List α :=
  l.drop (l.length - n)

/-- Modelled from the spec: the best-effort string rendering of one
namespace variable as name, type and truncated value. -/
def renderVariable : String × String × String → String
  | (name, ty, val) => name ++ " (" ++ ty ++ "): " ++ val

/-- Modelled from the spec: the rendering of the variable snapshot, one
variable per line. -/
def renderVariables (vars : List (String × String × String)) : String :=
  String.intercalate "\n" (vars.map renderVariable)

/-- Modelled from the spec: the context-gathering logic of the missing
src/llm_magic/bridge.py: read up to nCells most recent executed cells,
bounded by the configured maximum, and, unless disabled, a rendering of
the namespace variables. -/
def gatherContext (maxContextCells : Nat) (st : NotebookState) (nCells : Nat)
    (includeVariables : Bool) : PromptContext where
  cells := takeLast (min nCells maxContextCells) st.history
  variableSnapshot :=
    if includeVariables then some (renderVariables st.namespaceVars) else none

/-- Modelled from the spec: the final prompt built from the cell body and
the truncated context: the variable snapshot when present, then the prior
cells, then the body. -/
def buildPrompt (body : String) (ctx : PromptContext) : String :=
  (match ctx.variableSnapshot with
   | some snap => "Current variables:\n" ++ snap ++ "\n\n"
   | none => "")
  ++ (if ctx.cells.isEmpty then ""
      else "Previous cells:\n" ++ String.intercalate "\n" ctx.cells ++ "\n\n")
  ++ body

/-- Modelled from the spec: the prompt a %%llm invocation with parsed
flags f assembles against notebook state st. -/
def assembledPrompt (f : Flags) (maxCells : Nat) (st : NotebookState)
    (body : String) : String :=
  buildPrompt body (gatherContext maxCells st f.context (!f.noVariables))

/-- Modelled from the spec: the host environment the bridge runs in:
either the expected notebook kernel with its state, or no supported host
at all. -/
inductive HostEnv
  | notebook (st : NotebookState)
  | noHost
  deriving DecidableEq, Repr

/-- Modelled from the spec: a UI action the bridge performs in the host
notebook. -/
inductive UIAction
  | displayed (text : String)
  | injectedCell (code : String)
  | executedCode (code : String)
  deriving DecidableEq, Repr

/-- Modelled from the spec: rendering the response either as formatted
rich output or, under the raw flag, as the plain provider text with no
added markers. -/
def renderOutput (text : String) (raw : Bool) : String :=
  if raw then text else "```python\n" ++ text ++ "\n```"

/-- Modelled from the spec: the context-gathering bridge operation; with
no supported host it fails with the unsupported-environment error. -/
def IPythonBridge.gather_context : HostEnv → Nat → Nat → Bool →
    Except MagicError PromptContext
  | .noHost, _, _, _ => .error .unsupportedEnvironment
  | .notebook st, maxCells, nCells, includeVars =>
      .ok (gatherContext maxCells st nCells includeVars)

/-- Modelled from the spec: the display bridge operation, returning the
rendered text; with no supported host it fails with the
unsupported-environment error. -/
def IPythonBridge.display : HostEnv → String → Bool → Except MagicError String
  | .noHost, _, _ => .error .unsupportedEnvironment
  | .notebook _, text, raw => .ok (renderOutput text raw)

/-- Modelled from the spec: the cell-injection bridge operation; with no
supported host it fails with the unsupported-environment error. -/
def IPythonBridge.inject_cell : HostEnv → String → Except MagicError UIAction
  | .noHost, _ => .error .unsupportedEnvironment
  | .notebook _, code => .ok (.injectedCell code)

/-- Modelled from the spec: the code-execution bridge operation; with no
supported host it fails with the unsupported-environment error. -/
def IPythonBridge.execute : HostEnv → String → Except MagicError UIAction
  | .noHost, _ => .error .unsupportedEnvironment
  | .notebook _, code => .ok (.executedCode code)

/-- Modelled from the spec: the outcome of the single network call a
provider client makes, the oracle the shallow embedding uses for the
vendor SDK transport. -/
inductive TransportOutcome
  | success (text : String)
  | networkFailure
  | timeout
  | rateLimited
  | httpError (status : Nat)
  | authFailure
  deriving DecidableEq, Repr

/-- Modelled from the spec: the classification of a transport failure
into auth, rate-limit, network or unknown, none for a successful call. -/
def classifyTransport : TransportOutcome → Option MagicError
  | .success _ => none
  | .networkFailure => some .networkError
  | .timeout => some .networkError
  | .rateLimited => some .rateLimitError
  | .httpError status =>
      some (if status == 401 || status == 403 then .authError
            else if status == 429 then .rateLimitError
            else .unknownError)
  | .authFailure => some .authError

/-- The text a successful transport outcome carries. -/
def TransportOutcome.text : TransportOutcome → String
  | .success t => t
  | _ => ""

/-- Modelled from the spec: LLMClient.generate, performing exactly one
network call whose outcome the transport oracle decides, returning the
generated text or the classified error. -/
def LLMClient.generate (_prompt : String) (outcome : TransportOutcome) :
    Except MagicError String :=
  match classifyTransport outcome with
  | some e => .error e
  | none => .ok outcome.text

/-- Modelled from the spec: resolving the provider named by the flag (or
the configured default) to a supported provider; any other name is the
unsupported-provider error. -/
def resolveProvider (flagProvider : Option String) (defaultProviderName : String) :
    Except MagicError Provider :=
  let name := overlay defaultProviderName flagProvider
  if name = "openai" then .ok .openai
  else if name = "claude" then .ok .claude
  else .error (.unsupportedProvider name)

/-- Modelled from the spec: the user-facing rendering of each error of
the taxonomy; a flag-parse failure renders as a usage error. -/
def renderError : MagicError → String
  | .flagParse msg => "UsageError: " ++ msg
  | .configValidation msg => "Configuration error: " ++ msg
  | .unsupportedProvider name => "Error: unsupported provider " ++ name
  | .authError => "Error: authentication failed (missing or invalid API key)"
  | .rateLimitError => "Error: rate limit exceeded"
  | .networkError => "Error: network failure while contacting the provider"
  | .unknownError => "Error: the provider request failed"
  | .unsupportedEnvironment => "Error: not running inside an IPython notebook environment"

/-- Modelled from the spec: the result of one magic invocation as the
user sees it: the displayed outputs, the user-facing error messages, and
the number of provider network calls performed. -/
structure MagicResult where
  outputs : List String
  errorMessages : List String
  networkCalls : Nat
  deriving DecidableEq, Repr

/-- Modelled from the spec: the body of one %%llm invocation: parse and
validate flags, resolve the provider, gather context through the bridge,
call the client once, and render the response; the result pairs the
outcome with the number of network calls made. -/
def runInner (env : HostEnv) (maxCells : Nat) (defaultProviderName : String)
    (outcome : TransportOutcome) (args : List Arg) (body : String) :
    Except MagicError String × Nat :=
  match parseFlags args with
  | .error msg => (.error (.flagParse msg), 0)
  | .ok f =>
      match resolveProvider f.provider defaultProviderName with
      | .error e => (.error e, 0)
      | .ok _ =>
          match IPythonBridge.gather_context env maxCells f.context (!f.noVariables) with
          | .error e => (.error e, 0)
          | .ok ctx =>
              match LLMClient.generate (buildPrompt body ctx) outcome with
              | .error e => (.error e, 1)
              | .ok text =>
                  match IPythonBridge.display env text f.raw with
                  | .error e => (.error e, 1)
                  | .ok rendered => (.ok rendered, 1)

/-- Modelled from the spec: the %%llm magic entry point: every error of
the inner pipeline is caught at this boundary and rendered as a single
user-facing message, a success is displayed as a single output. -/
def runLLMMagic (env : HostEnv) (maxCells : Nat) (defaultProviderName : String)
    (outcome : TransportOutcome) (args : List Arg) (body : String) : MagicResult :=
  match runInner env maxCells defaultProviderName outcome args body with
  | (.ok out, calls) =>
      { outputs := [out], errorMessages := [], networkCalls := calls }
  | (.error e, calls) =>
      { outputs := [], errorMessages := [renderError e], networkCalls := calls }

/-- Modelled from the spec: the only state that persists across magic
invocations in the kernel process: the cached client instances, keyed by
provider and model, and the in-memory configuration overlay written by
%%llm_config. -/
structure SessionState where
  clientCache : List ((String × String) × Nat)
  configOverlay : List (String × String)
  deriving DecidableEq, Repr

/-- Modelled from the spec: parsing one line of the %%llm_config body as
a key:value pair; a line with no colon or an empty key is skipped. -/
def parseConfigLine (line : String) : Option (String × String) :=
  match line.splitOn ":" with
  | [] => none
  | [_] => none
  | key :: rest =>
      let k := key.trim
      if k.isEmpty then none
      else some (k, (String.intercalate ":" rest).trim)

/-- Modelled from the spec: parsing the small key:value block of a
%%llm_config invocation, line by line. -/
def parseKeyValues (body : String) : List (String × String) :=
  (body.splitOn "\n").filterMap parseConfigLine

/-- Modelled from the spec: setting one key in the in-memory
configuration overlay, replacing any earlier value for the same key. -/
def setKey (ov : List (String × String)) (kv : String × String) :
    List (String × String) :=
  ov.filter (fun p => p.1 != kv.1) ++ [kv]

/-- Modelled from the spec: persisting a list of parsed key:value pairs
into the configuration overlay, in order. -/
def applyPairs (ov : List (String × String)) (pairs : List (String × String)) :
    List (String × String) :=
  pairs.foldl setKey ov

/-- Modelled from the spec: the %%llm_config magic: parse the key:value
block and persist it into the active in-memory configuration for the
remainder of the session, touching nothing else. -/
def llmConfigStep (st : SessionState) (body : String) : SessionState :=
  { st with configOverlay := applyPairs st.configOverlay (parseKeyValues body) }

/-- Modelled from the spec: caching a client instance for a provider and
model pair, reusing the cached instance when one exists. -/
def cacheClient (cache : List ((String × String) × Nat)) (key : String × String) :
    List ((String × String) × Nat) :=
  if cache.any (fun p => p.1 = key) then cache
  else cache ++ [(key, cache.length)]

/-- The name a provider is selected by. -/
def Provider.name : Provider → String
  | .openai => "openai"
  | .claude => "claude"

/-- Modelled from the spec: one %%llm invocation as a session-state
transition: the invocation runs to completion and the only state it may
touch is the client cache, extended for the provider and model it
resolved. -/
def llmStep (st : SessionState) (env : HostEnv) (maxCells : Nat)
    (defaultProviderName defaultModel : String) (outcome : TransportOutcome)
    (args : List Arg) (body : String) : SessionState × MagicResult :=
  let newCache :=
    match parseFlags args with
    | .error _ => st.clientCache
    | .ok f =>
        match resolveProvider f.provider defaultProviderName with
        | .error _ => st.clientCache
        | .ok p => cacheClient st.clientCache (p.name, overlay defaultModel f.model)
  ({ clientCache := newCache, configOverlay := st.configOverlay },
   runLLMMagic env maxCells defaultProviderName outcome args body)

/-- A successful validation returns the flag record unchanged. -/
theorem validateFlags_ok_eq {f g : Flags} (h : validateFlags f = .ok g) : g = f := by
  unfold validateFlags at h
  split at h
  · injection h with h2
    exact h2.symm
  · split at h
    · injection h with h2
      exact h2.symm
    · exact Except.noConfusion h

/-- Applying any argument other than the context flag leaves the context
field of the flag record unchanged. -/
theorem applyArg_context {f g : Flags} {a : Arg} (ha : a.isContextArg = false)
    (h : applyArg f a = .ok g) : g.context = f.context := by
  cases a <;> simp only [applyArg] at h <;> try split at h
  all_goals try exact Except.noConfusion h
  all_goals try (injection h with h2; subst h2; rfl)
  all_goals simp_all [Arg.isContextArg]

/-- The parsing loop leaves the context field of the accumulator
unchanged when no argument is the context flag. -/
theorem parseArgs_context (args : List Arg) : ∀ f g : Flags,
    args.all (fun a => !a.isContextArg) = true →
    parseArgs f args = .ok g → g.context = f.context := by
  induction args with
  | nil =>
      intro f g _ hp
      simp only [parseArgs] at hp
      rw [validateFlags_ok_eq hp]
  | cons a rest ih =>
      intro f g hall hp
      simp only [List.all_cons, Bool.and_eq_true, Bool.not_eq_true'] at hall
      simp only [parseArgs] at hp
      rcases h2 : applyArg f a with e | f2
      · rw [h2] at hp
        exact Except.noConfusion hp
      · rw [h2] at hp
        rw [ih f2 g hall.2 hp, applyArg_context hall.1 h2]

/-- C1: for every %%llm invocation whose flags are malformed or fail
validation, the magic prints exactly one usage error and aborts with zero
provider network calls. -/
theorem usage_error_aborts_without_network (env : HostEnv) (maxCells : Nat)
    (dp : String) (outcome : TransportOutcome) (args : List Arg) (body : String)
    (msg : String) (h : parseFlags args = .error msg) :
    runLLMMagic env maxCells dp outcome args body =
      { outputs := [], errorMessages := [renderError (.flagParse msg)],
        networkCalls := 0 } := by
  simp [runLLMMagic, runInner, h]

/-- Witness for C1 at the concrete input temperature 3, which is outside
the valid range. -/
theorem usage_error_aborts_without_network_witness :
    runLLMMagic (.notebook ⟨[], []⟩) 10 "openai" (.success "hi")
        [Arg.temperatureFlag 3] "body" =
      { outputs := [],
        errorMessages := [renderError (.flagParse "temperature must be between 0 and 2")],
        networkCalls := 0 } :=
  usage_error_aborts_without_network _ _ _ _ _ _ _ rfl

/-- C2: ConfigManager.resolve obeys the strict precedence flag over
environment over YAML file over built-in default, for every setting; the
first part states the precedence of the shared per-setting resolver, the
second that the resolver is applied to each overlapping setting. -/
theorem config_precedence :
    (∀ (α : Type) (d : α) (file envv flag : Option α) (v : α),
      (flag = some v → resolveSetting d file envv flag = v) ∧
      (flag = none → envv = some v → resolveSetting d file envv flag = v) ∧
      (flag = none → envv = none → file = some v →
        resolveSetting d file envv flag = v) ∧
      (flag = none → envv = none → file = none →
        resolveSetting d file envv flag = d)) ∧
    (∀ file envv flags : ConfigSources,
      (ConfigManager.resolve file envv flags).temperature =
        resolveSetting (7 / 10 : Rat) file.temperature envv.temperature
          flags.temperature ∧
      (ConfigManager.resolve file envv flags).defaultProviderName =
        resolveSetting "openai" file.defaultProviderName envv.defaultProviderName
          flags.defaultProviderName ∧
      (ConfigManager.resolve file envv flags).maxContextCells =
        resolveSetting 10 file.maxContextCells envv.maxContextCells
          flags.maxContextCells ∧
      (ConfigManager.resolve file envv flags).maxTokens =
        resolveSetting 2000 file.maxTokens envv.maxTokens flags.maxTokens ∧
      (ConfigManager.resolve file envv flags).debug =
        resolveSetting false file.debug envv.debug flags.debug ∧
      (ConfigManager.resolve file envv flags).logRequests =
        resolveSetting false file.logRequests envv.logRequests flags.logRequests ∧
      (ConfigManager.resolve file envv flags).defaultOpenaiModel =
        resolveSetting "gpt-4" file.defaultOpenaiModel envv.defaultOpenaiModel
          flags.defaultOpenaiModel ∧
      (ConfigManager.resolve file envv flags).defaultClaudeModel =
        resolveSetting "claude-3-sonnet-20240229" file.defaultClaudeModel
          envv.defaultClaudeModel flags.defaultClaudeModel) := by
  constructor
  · intro α d file envv flag v
    refine ⟨fun h1 => ?_, fun h1 h2 => ?_, fun h1 h2 h3 => ?_, fun h1 h2 h3 => ?_⟩ <;>
      simp_all [resolveSetting, overlay]
  · intro file envv flags
    exact ⟨rfl, rfl, rfl, rfl, rfl, rfl, rfl, rfl⟩

/-- Witness for C2 at concrete sources, one for each precedence level. -/
theorem config_precedence_witness :
    resolveSetting (0 : Nat) none none (some 5) = 5 ∧
    resolveSetting (0 : Nat) none (some 4) none = 4 ∧
    resolveSetting (0 : Nat) (some 3) none none = 3 ∧
    resolveSetting (0 : Nat) none none none = 0 :=
  ⟨(config_precedence.1 Nat 0 none none (some 5) 5).1 rfl,
   (config_precedence.1 Nat 0 none (some 4) none 4).2.1 rfl rfl,
   (config_precedence.1 Nat 0 (some 3) none none 3).2.2.1 rfl rfl rfl,
   (config_precedence.1 Nat 0 none none none 0).2.2.2 rfl rfl rfl⟩

/-- C3: the gathered context holds exactly the min of the requested cell
count (bounded by the configured maximum) and the history length, and is
a suffix of the execution history, hence the most recent cells in
chronological order. -/
theorem gather_context_cells_spec (maxCells : Nat) (st : NotebookState)
    (n : Nat) (includeVars : Bool) :
    (gatherContext maxCells st n includeVars).cells.length =
      min (min n maxCells) st.history.length ∧
    List.IsSuffix (gatherContext maxCells st n includeVars).cells st.history := by
  constructor
  · simp only [gatherContext, takeLast, List.length_drop]
    omega
  · simp only [gatherContext, takeLast]
    exact List.drop_suffix _ _

/-- C4: under the no-variables flag the gathered context carries no
variable snapshot, and the assembled prompt depends only on the execution
history, not on the namespace variables. -/
theorem no_variables_prompt_independent (f : Flags) (maxCells : Nat)
    (st1 st2 : NotebookState) (body : String)
    (hf : f.noVariables = true) (hh : st1.history = st2.history) :
    (gatherContext maxCells st1 f.context (!f.noVariables)).variableSnapshot =
      none ∧
    assembledPrompt f maxCells st1 body = assembledPrompt f maxCells st2 body := by
  simp [gatherContext, assembledPrompt, buildPrompt, takeLast, hf, hh]

/-- Witness for C4 at two concrete notebook states sharing a history but
holding different namespace variables. -/
theorem no_variables_prompt_independent_witness :
    (gatherContext 10 ⟨["c1"], [("x", "int", "5")]⟩
        ({ defaultFlags with noVariables := true } : Flags).context
        (!({ defaultFlags with noVariables := true } : Flags).noVariables)).variableSnapshot =
      none ∧
    assembledPrompt { defaultFlags with noVariables := true } 10
        ⟨["c1"], [("x", "int", "5")]⟩ "body" =
      assembledPrompt { defaultFlags with noVariables := true } 10
        ⟨["c1"], [("y", "str", "hi")]⟩ "body" :=
  no_variables_prompt_independent _ _ _ _ _ rfl rfl

/-- C5: under the raw flag the displayed output of a successful
invocation is byte-identical to the text the provider returned. -/
theorem raw_output_byte_identical (st : NotebookState) (maxCells : Nat)
    (dp : String) (args : List Arg) (body text : String) (f : Flags) (p : Provider)
    (hok : parseFlags args = .ok f) (hraw : f.raw = true)
    (hp : resolveProvider f.provider dp = .ok p) :
    runLLMMagic (.notebook st) maxCells dp (.success text) args body =
      { outputs := [text], errorMessages := [], networkCalls := 1 } := by
  simp [runLLMMagic, runInner, hok, hp, IPythonBridge.gather_context,
        LLMClient.generate, classifyTransport, IPythonBridge.display,
        renderOutput, hraw, TransportOutcome.text]

/-- Witness for C5 at a concrete provider response. -/
theorem raw_output_byte_identical_witness :
    runLLMMagic (.notebook ⟨[], []⟩) 10 "openai" (.success "plain text")
        [Arg.rawFlag] "body" =
      { outputs := ["plain text"], errorMessages := [], networkCalls := 1 } :=
  raw_output_byte_identical _ _ _ _ _ _ { defaultFlags with raw := true }
    .openai rfl rfl rfl

/-- C6: every provider-transport failure during the provider call yields
exactly one user-facing error message carrying the classification of the
failure, with no output displayed, after exactly one network call. -/
theorem transport_failure_single_error (st : NotebookState) (maxCells : Nat)
    (dp : String) (outcome : TransportOutcome) (args : List Arg) (body : String)
    (f : Flags) (p : Provider) (e : MagicError)
    (hok : parseFlags args = .ok f)
    (hp : resolveProvider f.provider dp = .ok p)
    (he : classifyTransport outcome = some e) :
    runLLMMagic (.notebook st) maxCells dp outcome args body =
      { outputs := [], errorMessages := [renderError e], networkCalls := 1 } := by
  simp [runLLMMagic, runInner, hok, hp, IPythonBridge.gather_context,
        LLMClient.generate, he]

/-- Witness for C6 at a concrete rate-limited transport outcome. -/
theorem transport_failure_single_error_witness :
    runLLMMagic (.notebook ⟨[], []⟩) 10 "openai" .rateLimited [] "body" =
      { outputs := [], errorMessages := [renderError .rateLimitError],
        networkCalls := 1 } :=
  transport_failure_single_error _ _ _ _ _ _ defaultFlags .openai
    .rateLimitError rfl rfl rfl

/-- C7: every invocation of the magic entry point produces either a
single displayed output and no error, or a single rendered user-facing
error message of the taxonomy and no output; no error escapes the magic
boundary unrendered. -/
theorem all_errors_caught_at_boundary (env : HostEnv) (maxCells : Nat)
    (dp : String) (outcome : TransportOutcome) (args : List Arg) (body : String) :
    (∃ out calls,
        runLLMMagic env maxCells dp outcome args body =
          { outputs := [out], errorMessages := [], networkCalls := calls }) ∨
    (∃ e calls,
        runLLMMagic env maxCells dp outcome args body =
          { outputs := [], errorMessages := [renderError e],
            networkCalls := calls }) := by
  rcases h : runInner env maxCells dp outcome args body with ⟨res, calls⟩
  cases res with
  | ok out =>
      refine Or.inl ⟨out, calls, ?_⟩
      simp [runLLMMagic, h]
  | error e =>
      refine Or.inr ⟨e, calls, ?_⟩
      simp [runLLMMagic, h]

/-- C8: outside the expected host notebook environment every bridge
operation fails with the unsupported-environment error instead of
crashing. -/
theorem bridge_unsupported_environment (maxCells nCells : Nat)
    (includeVars : Bool) (text code : String) (raw : Bool) :
    IPythonBridge.gather_context .noHost maxCells nCells includeVars =
      .error .unsupportedEnvironment ∧
    IPythonBridge.display .noHost text raw = .error .unsupportedEnvironment ∧
    IPythonBridge.inject_cell .noHost code = .error .unsupportedEnvironment ∧
    IPythonBridge.execute .noHost code = .error .unsupportedEnvironment :=
  ⟨rfl, rfl, rfl, rfl⟩

/-- C9: %%llm_config persists exactly the parsed key:value pairs into the
configuration overlay and leaves the client cache unchanged, and a %%llm
invocation leaves the configuration overlay unchanged, so the only state
persisting between invocations is the client cache and the overlay. -/
theorem session_state_frame (st : SessionState) (cfgBody : String)
    (env : HostEnv) (maxCells : Nat) (dp dm : String)
    (outcome : TransportOutcome) (args : List Arg) (body : String) :
    (llmConfigStep st cfgBody).clientCache = st.clientCache ∧
    (llmConfigStep st cfgBody).configOverlay =
      applyPairs st.configOverlay (parseKeyValues cfgBody) ∧
    (llmStep st env maxCells dp dm outcome args body).1.configOverlay =
      st.configOverlay :=
  ⟨rfl, rfl, rfl⟩

/-- C10: a valid %%llm invocation that omits the context flag parses with
the context-cell count defaulted to 3. -/
theorem context_default_three (args : List Arg) (f : Flags)
    (hno : args.all (fun a => !a.isContextArg) = true)
    (hok : parseFlags args = .ok f) : f.context = 3 := by
  unfold parseFlags at hok
  exact (parseArgs_context args defaultFlags f hno hok).trans rfl

/-- Witness for C10 at a concrete invocation carrying only the raw
flag. -/
theorem context_default_three_witness :
    ({ defaultFlags with raw := true } : Flags).context = 3 :=
  context_default_three [Arg.rawFlag] { defaultFlags with raw := true } rfl rfl
